import Mathlib

/-!
# Verification of the Signature Engine coordinate and rendering core

Shallow embedding of the coordinate-transformation and field-rendering
engine of the Signature-Engine repository:

* `transformCoordinatesToPDF` — backend percent → PDF-point transform
  with the vertical origin flip (src/backend/server.js, lines 52–72).
* `calculateAspectRatioFit` — aspect-ratio-preserving fit of an image
  into a box (src/backend/server.js, lines 84–103).
* `processField` / `runFields` / `signPdf` — the field dispatch switch
  and the per-field processing loop of the `/sign-pdf` endpoint
  (src/backend/server.js, lines 106–215), modelled as a function from a
  field to the list of draw operations and recorded warnings, in
  `Except` to capture uncaught throws.
* `pixelToPercentage` / `percentageToPixel` — the frontend editing
  surface transforms (src/frontend/src/App.jsx, lines 80–106).

JavaScript numbers are modelled by `ℚ`: every numeric claim of the spec
is stated "within floating-point tolerance", which exact rational
arithmetic satisfies.
-/

namespace SignatureEngine

/-- Percentage-space placement of a field, top-left origin:
the `x, y, width, height` percent record the frontend sends as
`field.coordinates`. -/
structure PercentCoords where
  x : ℚ
  y : ℚ
  width : ℚ
  height : ℚ
deriving DecidableEq

/-- Page dimensions in PDF points, the `width, height` pair returned
by `firstPage.getSize()`. -/
structure PageDims where
  width : ℚ
  height : ℚ
deriving DecidableEq

/-- A rectangle in PDF points, bottom-left origin: the return value of
`transformCoordinatesToPDF`. -/
structure PDFRect where
  x : ℚ
  y : ℚ
  width : ℚ
  height : ℚ
deriving DecidableEq

/-- `transformCoordinatesToPDF` from src/backend/server.js lines 52–72:
percentage → points, then the Y origin flip
`yPointsFromBottom = pageHeight - yPointsFromTop - heightPoints`. -/
def transformCoordinatesToPDF (percentCoords : PercentCoords)
    (pdfPageDimensions : PageDims) : PDFRect :=
  let xPoints := (percentCoords.x / 100) * pdfPageDimensions.width
  let yPointsFromTop := (percentCoords.y / 100) * pdfPageDimensions.height
  let widthPoints := (percentCoords.width / 100) * pdfPageDimensions.width
  let heightPoints := (percentCoords.height / 100) * pdfPageDimensions.height
  let yPointsFromBottom :=
    pdfPageDimensions.height - yPointsFromTop - heightPoints
  { x := xPoints
    y := yPointsFromBottom
    width := widthPoints
    height := heightPoints }

/-- Modelled from the spec: the repository's src/ contains only the
forward transform `transformCoordinatesToPDF`; §4.1 of the spec requires
an inverse (points → percent) that "is the exact algebraic inverse" of
the forward formulas, so the inverse is transcribed here by inverting
each forward line: `x = xPts/pageWidth·100`, `width = wPts/pageWidth·100`,
`height = hPts/pageHeight·100`, and the unflipped
`y = (pageHeight - yPts - hPts)/pageHeight·100`. -/
def pointsToPercent (rect : PDFRect) (pdfPageDimensions : PageDims) :
    PercentCoords :=
  { x := rect.x / pdfPageDimensions.width * 100
    y := (pdfPageDimensions.height - rect.y - rect.height) /
      pdfPageDimensions.height * 100
    width := rect.width / pdfPageDimensions.width * 100
    height := rect.height / pdfPageDimensions.height * 100 }

/-- Result record of `calculateAspectRatioFit`:
`width, height, offsetX, offsetY`. -/
structure AspectFit where
  width : ℚ
  height : ℚ
  offsetX : ℚ
  offsetY : ℚ
deriving DecidableEq

/-- The `imgRatio > boxRatio` branch of `calculateAspectRatioFit`
(src/backend/server.js lines 90–94): image relatively wider, fit to
width. -/
def aspectFitToWidth (boxWidth boxHeight imgWidth imgHeight : ℚ) : AspectFit :=
  let imgRatio := imgWidth / imgHeight
  { width := boxWidth
    height := boxWidth / imgRatio
    offsetX := 0
    offsetY := (boxHeight - boxWidth / imgRatio) / 2 }

/-- The else branch of `calculateAspectRatioFit`
(src/backend/server.js lines 95–99): image relatively taller, fit to
height. -/
def aspectFitToHeight (boxWidth boxHeight imgWidth imgHeight : ℚ) :
    AspectFit :=
  let imgRatio := imgWidth / imgHeight
  { width := boxHeight * imgRatio
    height := boxHeight
    offsetX := (boxWidth - boxHeight * imgRatio) / 2
    offsetY := 0 }

/-- `calculateAspectRatioFit` from src/backend/server.js lines 84–103:
compare `imgRatio = imgWidth/imgHeight` against
`boxRatio = boxWidth/boxHeight` and take the corresponding branch. -/
def calculateAspectRatioFit (boxWidth boxHeight imgWidth imgHeight : ℚ) :
    AspectFit :=
  let boxRatio := boxWidth / boxHeight
  let imgRatio := imgWidth / imgHeight
  if imgRatio > boxRatio then
    aspectFitToWidth boxWidth boxHeight imgWidth imgHeight
  else
    aspectFitToHeight boxWidth boxHeight imgWidth imgHeight

/-- The payload behind `field.imageData`, a base64 data URL string.
`hasComma` records whether the data URL contains a comma, so that the
`split` at line 143 yields defined bytes (when it does not,
`Buffer.from` throws on `undefined` outside any per-field catch);
`isPng` records whether the URL mentions `image/png` (line 148);
`embedOk` records whether `embedPng`/`embedJpg` succeeds on the decoded
bytes (lines 147–156); the natural dimensions are what
`embeddedImage.scale(1)` reports (line 159). -/
structure ImagePayload where
  hasComma : Bool
  isPng : Bool
  embedOk : Bool
  naturalWidth : ℚ
  naturalHeight : ℚ
deriving DecidableEq

/-- One field record of the parsed request payload, as read by the
`/sign-pdf` loop: a `type` string tag, percentage `coordinates`, an
optional string `value`, optional image data, and a `checked` flag. -/
structure Field where
  type : String
  coordinates : PercentCoords
  value : Option String
  imageData : Option ImagePayload
  checked : Bool
deriving DecidableEq

/-- A drawing operation performed on the first page: `drawImage`,
`drawText` or `drawCircle` with the arguments the handler passes. -/
inductive DrawOp where
  | drawImage (x y width height : ℚ)
  | drawText (text : String) (x y size : ℚ)
  | drawCircle (x y size : ℚ)
deriving DecidableEq

/-- JavaScript truthiness fallback `field.value || today` used by the
date case (src/backend/server.js line 189): an absent or empty-string
value falls back to the current locale date string. -/
def jsStringOr (v : Option String) (dflt : String) : String :=
  match v with
  | Option.some s => if s = "" then dflt else s
  | Option.none => dflt

/-- One iteration of the field loop of the `/sign-pdf` handler
(src/backend/server.js lines 125–215): transform the coordinates, then
dispatch on `field.type`. `today` stands for the current locale date
string. The result is the list of draw operations applied to the first
page and the list of recorded warnings (the `console.error` in the
embed catch); `Except.error` models an uncaught throw, which aborts the
whole request. The switch has no default case, so a type tag matching
no case falls through with no effect. -/
def processField (dims : PageDims) (today : String) (field : Field) :
    Except String (List DrawOp × List String) :=
  let pdfCoords := transformCoordinatesToPDF field.coordinates dims
  if field.type = "signature" ∨ field.type = "image" then
    match field.imageData with
    | Option.some img =>
      if img.hasComma = false then
        Except.error ("TypeError: undefined is not a valid base64 input")
      else if img.embedOk = false then
        Except.ok ([], ["Image embed error"])
      else
        let fitted := calculateAspectRatioFit pdfCoords.width pdfCoords.height
          img.naturalWidth img.naturalHeight
        Except.ok ([DrawOp.drawImage (pdfCoords.x + fitted.offsetX)
          (pdfCoords.y + fitted.offsetY) fitted.width fitted.height], [])
    | Option.none => Except.ok ([], [])
  else if field.type = "text" then
    match field.value with
    | Option.some v =>
      if v = "" then
        Except.ok ([], [])
      else
        Except.ok ([DrawOp.drawText v (pdfCoords.x + 5)
          (pdfCoords.y + pdfCoords.height / 2)
          (min (pdfCoords.height * 0.6) 12)], [])
    | Option.none => Except.ok ([], [])
  else if field.type = "date" then
    Except.ok ([DrawOp.drawText (jsStringOr field.value today)
      (pdfCoords.x + 5) (pdfCoords.y + pdfCoords.height / 2)
      (min (pdfCoords.height * 0.6) 12)], [])
  else if field.type = "radio" then
    if field.checked then
      Except.ok ([DrawOp.drawCircle (pdfCoords.x + pdfCoords.width / 2)
        (pdfCoords.y + pdfCoords.height / 2)
        (min pdfCoords.width pdfCoords.height / 3)], [])
    else
      Except.ok ([], [])
  else
    Except.ok ([], [])

/-- The whole `for (const field of fields)` loop: fields are processed
in order, draw operations and warnings accumulate, and an uncaught
throw aborts the rest of the request. -/
def runFields (dims : PageDims) (today : String) :
    List Field → Except String (List DrawOp × List String)
  | [] => Except.ok ([], [])
  | f :: fs =>
    match processField dims today f with
    | Except.error e => Except.error e
    | Except.ok (ops, warns) =>
      match runFields dims today fs with
      | Except.error e => Except.error e
      | Except.ok (ops2, warns2) => Except.ok (ops ++ ops2, warns ++ warns2)

/-- The JSON request body parsed at src/backend/server.js line 108:
its `fields` list and the client-supplied `pdfDimensions` hint. -/
structure SignRequest where
  fields : List Field
  pdfDimensions : PageDims
deriving DecidableEq

/-- The rendering portion of the `/sign-pdf` handler
(src/backend/server.js lines 106–215): page dimensions come from
`firstPage.getSize()` of the decoded document (`docDims`), and each
field of the parsed request body is processed in order. The
client-supplied `pdfDimensions` member of the request is destructured
at line 108 but never read afterwards. -/
def signPdf (docDims : PageDims) (today : String) (req : SignRequest) :
    Except String (List DrawOp × List String) :=
  runFields docDims today req.fields

/-- A pixel-space rectangle on the editing surface, top-left origin. -/
structure PixelRect where
  x : ℚ
  y : ℚ
  width : ℚ
  height : ℚ
deriving DecidableEq

/-- `pixelToPercentage` from src/frontend/src/App.jsx lines 80–93:
divide by the display scale to get page coordinates, then divide by the
page dimension and multiply by 100; x and y use the same formula on
their respective axes, with no origin flip. -/
def pixelToPercentage (scale pageWidth pageHeight : ℚ)
    (pixelX pixelY pixelWidth pixelHeight : ℚ) : PercentCoords :=
  let actualX := pixelX / scale
  let actualY := pixelY / scale
  let actualWidth := pixelWidth / scale
  let actualHeight := pixelHeight / scale
  { x := actualX / pageWidth * 100
    y := actualY / pageHeight * 100
    width := actualWidth / pageWidth * 100
    height := actualHeight / pageHeight * 100 }

/-- `percentageToPixel` from src/frontend/src/App.jsx lines 99–106:
percent / 100 times the page dimension times the display scale, again
with no origin flip. -/
def percentageToPixel (scale pageWidth pageHeight : ℚ)
    (field : PercentCoords) : PixelRect :=
  { x := field.x / 100 * pageWidth * scale
    y := field.y / 100 * pageHeight * scale
    width := field.width / 100 * pageWidth * scale
    height := field.height / 100 * pageHeight * scale }

/-- The §8 example placement, shared by the concrete sample fields. -/
def samplePlacement : PercentCoords := ⟨10, 20, 25, 6⟩

/-- A field with a type tag outside the recognized variant set. -/
def unknownField : Field :=
  { type := "checkbox", coordinates := samplePlacement
    value := Option.none, imageData := Option.none, checked := false }

/-- A valid text field carrying the value `hello`. -/
def sampleTextField : Field :=
  { type := "text", coordinates := samplePlacement
    value := Option.some ("hello"), imageData := Option.none
    checked := false }

/-- Image data whose bytes fail to embed (`embedPng` throws). -/
def corruptImagePayload : ImagePayload :=
  { hasComma := true, isPng := true, embedOk := false
    naturalWidth := 300, naturalHeight := 100 }

/-- A signature field whose embedded image bytes fail to decode. -/
def corruptSigField : Field :=
  { type := "signature", coordinates := samplePlacement
    value := Option.none, imageData := Option.some corruptImagePayload
    checked := false }

/-- A text field whose value is the empty string. -/
def emptyTextField : Field :=
  { type := "text", coordinates := samplePlacement
    value := Option.some (""), imageData := Option.none, checked := false }

/-- A signature field with absent image data. -/
def noImageSigField : Field :=
  { type := "signature", coordinates := samplePlacement
    value := Option.none, imageData := Option.none, checked := false }

/-- C1 — The forward percent-to-points transform computes
`x = (x/100)·pageWidth`, `width = (width/100)·pageWidth`,
`height = (height/100)·pageHeight`, and the flipped bottom-left-origin
`y = pageHeight - (y/100)·pageHeight - heightPts` (the flip subtracts
the box's own height); in particular on a 612×792 page the placement
{x:10, y:20, width:25, height:6} maps to x=61.2, width=153.0,
height=47.52, y=586.08. -/
theorem transformCoordinatesToPDF_formula (p : PercentCoords) (d : PageDims) :
    (transformCoordinatesToPDF p d).x = (p.x / 100) * d.width ∧
    (transformCoordinatesToPDF p d).width = (p.width / 100) * d.width ∧
    (transformCoordinatesToPDF p d).height = (p.height / 100) * d.height ∧
    (transformCoordinatesToPDF p d).y =
      d.height - (p.y / 100) * d.height - (transformCoordinatesToPDF p d).height ∧
    transformCoordinatesToPDF ⟨10, 20, 25, 6⟩ ⟨612, 792⟩ =
      ⟨61.2, 586.08, 153.0, 47.52⟩ := by
  refine ⟨rfl, rfl, rfl, rfl, ?_⟩
  show transformCoordinatesToPDF ⟨10, 20, 25, 6⟩ ⟨612, 792⟩ =
    ⟨61.2, 586.08, 153.0, 47.52⟩
  norm_num [transformCoordinatesToPDF]

/-- C2 — For every valid page (width > 0, height > 0) and every
placement `p`, the points-to-percent inverse applied to the forward
percent-to-points transform gives `p` back exactly (exact rational
arithmetic subsumes the 1e-9 relative floating-point tolerance). -/
theorem pointsToPercent_transformCoordinatesToPDF (p : PercentCoords)
    (d : PageDims) (hw : 0 < d.width) (hh : 0 < d.height) :
    pointsToPercent (transformCoordinatesToPDF p d) d = p := by
  obtain ⟨px, py, pw, ph⟩ := p
  obtain ⟨w, h⟩ := d
  simp only [pointsToPercent, transformCoordinatesToPDF, PercentCoords.mk.injEq]
  refine ⟨?_, ?_, ?_, ?_⟩ <;> field_simp <;> ring

/-- Witness for C2 at the US-Letter example from §8 of the spec. -/
theorem pointsToPercent_transformCoordinatesToPDF_witness :
    pointsToPercent (transformCoordinatesToPDF ⟨10, 20, 25, 6⟩ ⟨612, 792⟩)
      ⟨612, 792⟩ = ⟨10, 20, 25, 6⟩ :=
  pointsToPercent_transformCoordinatesToPDF ⟨10, 20, 25, 6⟩ ⟨612, 792⟩
    (by norm_num) (by norm_num)

/-- C3 — For every in-range placement (`0 ≤ x`, `0 ≤ y`,
`x + width ≤ 100`, `y + height ≤ 100`, `width > 0`, `height > 0`) and
every valid page, the produced point rectangle lies entirely within the
page with positive extent. -/
theorem transformCoordinatesToPDF_in_page (p : PercentCoords) (d : PageDims)
    (hx : 0 ≤ p.x) (hy : 0 ≤ p.y) (hxw : p.x + p.width ≤ 100)
    (hyh : p.y + p.height ≤ 100) (hw : 0 < p.width) (hh : 0 < p.height)
    (hW : 0 < d.width) (hH : 0 < d.height) :
    0 ≤ (transformCoordinatesToPDF p d).x ∧
    0 ≤ (transformCoordinatesToPDF p d).y ∧
    (transformCoordinatesToPDF p d).x + (transformCoordinatesToPDF p d).width
      ≤ d.width ∧
    (transformCoordinatesToPDF p d).y + (transformCoordinatesToPDF p d).height
      ≤ d.height ∧
    0 < (transformCoordinatesToPDF p d).width ∧
    0 < (transformCoordinatesToPDF p d).height := by
  obtain ⟨px, py, pw, ph⟩ := p
  obtain ⟨w, h⟩ := d
  simp only [transformCoordinatesToPDF] at *
  refine ⟨?_, ?_, ?_, ?_, ?_, ?_⟩ <;> nlinarith

/-- Witness for C3 at the US-Letter example from §8 of the spec. -/
theorem transformCoordinatesToPDF_in_page_witness :
    0 ≤ (transformCoordinatesToPDF ⟨10, 20, 25, 6⟩ ⟨612, 792⟩).x ∧
    0 ≤ (transformCoordinatesToPDF ⟨10, 20, 25, 6⟩ ⟨612, 792⟩).y ∧
    (transformCoordinatesToPDF ⟨10, 20, 25, 6⟩ ⟨612, 792⟩).x +
      (transformCoordinatesToPDF ⟨10, 20, 25, 6⟩ ⟨612, 792⟩).width ≤ 612 ∧
    (transformCoordinatesToPDF ⟨10, 20, 25, 6⟩ ⟨612, 792⟩).y +
      (transformCoordinatesToPDF ⟨10, 20, 25, 6⟩ ⟨612, 792⟩).height ≤ 792 ∧
    0 < (transformCoordinatesToPDF ⟨10, 20, 25, 6⟩ ⟨612, 792⟩).width ∧
    0 < (transformCoordinatesToPDF ⟨10, 20, 25, 6⟩ ⟨612, 792⟩).height :=
  transformCoordinatesToPDF_in_page ⟨10, 20, 25, 6⟩ ⟨612, 792⟩
    (by norm_num) (by norm_num) (by norm_num) (by norm_num)
    (by norm_num) (by norm_num) (by norm_num) (by norm_num)

/-- C4 — For all positive box and content dimensions the aspect-fit
result preserves the content's aspect ratio exactly, fits inside the
box, and is centered on the slack axis. -/
theorem calculateAspectRatioFit_spec (bw bh iw ih : ℚ)
    (hbw : 0 < bw) (hbh : 0 < bh) (hiw : 0 < iw) (hih : 0 < ih) :
    (calculateAspectRatioFit bw bh iw ih).width /
      (calculateAspectRatioFit bw bh iw ih).height = iw / ih ∧
    (calculateAspectRatioFit bw bh iw ih).width ≤ bw ∧
    (calculateAspectRatioFit bw bh iw ih).height ≤ bh ∧
    ((calculateAspectRatioFit bw bh iw ih).offsetX +
        (calculateAspectRatioFit bw bh iw ih).width / 2 = bw / 2 ∨
      (calculateAspectRatioFit bw bh iw ih).offsetY +
        (calculateAspectRatioFit bw bh iw ih).height / 2 = bh / 2) := by
  have hbw' : bw ≠ 0 := ne_of_gt hbw
  have hbh' : bh ≠ 0 := ne_of_gt hbh
  have hiw' : iw ≠ 0 := ne_of_gt hiw
  have hih' : ih ≠ 0 := ne_of_gt hih
  simp only [calculateAspectRatioFit, aspectFitToWidth, aspectFitToHeight]
  split
  case isTrue hgt =>
    have hratio : bw / bh < iw / ih := hgt
    refine ⟨?_, le_refl bw, ?_, Or.inr ?_⟩
    · field_simp
      ring
    · rw [div_div_eq_mul_div, div_le_iff₀ (by positivity)]
      rw [div_lt_div_iff₀ hbh hih] at hratio
      nlinarith
    · ring
  case isFalse hle =>
    have hratio : iw / ih ≤ bw / bh := not_lt.mp hle
    refine ⟨?_, ?_, le_refl bh, Or.inl ?_⟩
    · field_simp
      ring
    · rw [div_le_div_iff₀ hih hbh] at hratio
      calc bh * (iw / ih) = bh * iw / ih := by ring
        _ ≤ bw := by rw [div_le_iff₀ hih]; nlinarith
    · ring

/-- Witness for C4 at the §8 scenario: a 300×100 image embedded into the
153.0×47.52 box. -/
theorem calculateAspectRatioFit_spec_witness :
    (calculateAspectRatioFit 153 47.52 300 100).width /
      (calculateAspectRatioFit 153 47.52 300 100).height = 300 / 100 ∧
    (calculateAspectRatioFit 153 47.52 300 100).width ≤ 153 ∧
    (calculateAspectRatioFit 153 47.52 300 100).height ≤ 47.52 ∧
    ((calculateAspectRatioFit 153 47.52 300 100).offsetX +
        (calculateAspectRatioFit 153 47.52 300 100).width / 2 = 153 / 2 ∨
      (calculateAspectRatioFit 153 47.52 300 100).offsetY +
        (calculateAspectRatioFit 153 47.52 300 100).height / 2 = 47.52 / 2) :=
  calculateAspectRatioFit_spec 153 47.52 300 100
    (by norm_num) (by norm_num) (by norm_num) (by norm_num)

/-- C5 — In the tie case `imgRatio = boxRatio` (with all dimensions
positive) the branch actually taken and the branch not taken return the
same result, namely `(boxWidth, boxHeight, 0, 0)`. -/
theorem calculateAspectRatioFit_tie (bw bh iw ih : ℚ)
    (hbw : 0 < bw) (hbh : 0 < bh) (hiw : 0 < iw) (hih : 0 < ih)
    (htie : iw / ih = bw / bh) :
    calculateAspectRatioFit bw bh iw ih = ⟨bw, bh, 0, 0⟩ ∧
    aspectFitToHeight bw bh iw ih = ⟨bw, bh, 0, 0⟩ ∧
    aspectFitToWidth bw bh iw ih = ⟨bw, bh, 0, 0⟩ := by
  have hbh' : bh ≠ 0 := ne_of_gt hbh
  have hih' : ih ≠ 0 := ne_of_gt hih
  have h1 : bh * (iw / ih) = bw := by
    rw [htie]
    field_simp
  have h2 : bw / (iw / ih) = bh := by
    rw [htie, div_div_eq_mul_div, mul_comm, mul_div_assoc,
      div_self (ne_of_gt hbw), mul_one]
  have hheight : aspectFitToHeight bw bh iw ih = ⟨bw, bh, 0, 0⟩ := by
    simp [aspectFitToHeight, h1]
  have hwidth : aspectFitToWidth bw bh iw ih = ⟨bw, bh, 0, 0⟩ := by
    simp [aspectFitToWidth, h2]
  refine ⟨?_, hheight, hwidth⟩
  simp only [calculateAspectRatioFit]
  rw [if_neg (by rw [htie]; exact lt_irrefl _)]
  exact hheight

/-- Witness for C5 at a concrete tie: a 300×100 image into a 90×30 box
(both ratios 3). -/
theorem calculateAspectRatioFit_tie_witness :
    calculateAspectRatioFit 90 30 300 100 = ⟨90, 30, 0, 0⟩ ∧
    aspectFitToHeight 90 30 300 100 = ⟨90, 30, 0, 0⟩ ∧
    aspectFitToWidth 90 30 300 100 = ⟨90, 30, 0, 0⟩ :=
  calculateAspectRatioFit_tie 90 30 300 100
    (by norm_num) (by norm_num) (by norm_num) (by norm_num) (by norm_num)

/-- C6 counterexample — The claim that an unrecognized type tag
raises a fatal error is false: the switch has no default case, so the
field with type tag `checkbox` is processed without error, draws
nothing, records no warning, and the loop continues with the next
field, which is still rendered. -/
theorem unknownFieldType_not_fatal :
    processField ⟨612, 792⟩ ("1/1/2026") unknownField = Except.ok ([], []) ∧
    runFields ⟨612, 792⟩ ("1/1/2026") [unknownField, sampleTextField] =
      runFields ⟨612, 792⟩ ("1/1/2026") [sampleTextField] := ⟨rfl, rfl⟩

/-- C6 (amended) — A field whose type tag is none of the recognized
variants (`signature`, `image`, `text`, `date`, `radio`) is a silent
no-op, not a fatal error: dispatch returns no error, no draw operation
and no warning, and the loop continues identically on the remaining
fields. -/
theorem processField_unknownType (dims : PageDims) (today : String)
    (f : Field) (h1 : f.type ≠ "signature") (h2 : f.type ≠ "image")
    (h3 : f.type ≠ "text") (h4 : f.type ≠ "date") (h5 : f.type ≠ "radio") :
    processField dims today f = Except.ok ([], []) ∧
    ∀ fs, runFields dims today (f :: fs) = runFields dims today fs := by
  have hp : processField dims today f = Except.ok ([], []) := by
    simp [processField, h1, h2, h3, h4, h5]
  refine ⟨hp, fun fs => ?_⟩
  simp only [runFields, hp]
  cases hfs : runFields dims today fs with
  | error e => rfl
  | ok r => simp

/-- Witness for the amended C6: the `checkbox`-tagged field before a
valid text field. -/
theorem processField_unknownType_witness :
    processField ⟨612, 792⟩ ("1/1/2026") unknownField = Except.ok ([], []) ∧
    runFields ⟨612, 792⟩ ("1/1/2026") (unknownField :: [sampleTextField]) =
      runFields ⟨612, 792⟩ ("1/1/2026") [sampleTextField] :=
  ⟨(processField_unknownType ⟨612, 792⟩ ("1/1/2026") unknownField
      (by decide) (by decide) (by decide) (by decide) (by decide)).1,
    (processField_unknownType ⟨612, 792⟩ ("1/1/2026") unknownField
      (by decide) (by decide) (by decide) (by decide) (by decide)).2
      [sampleTextField]⟩

/-- C7 — A signature or image field whose embedded image bytes fail
to decode does not abort the pipeline: the field is skipped (no draw
operation), the embed-error warning is recorded, and every remaining
field is still processed with unchanged result. -/
theorem runFields_skip_on_bad_image (dims : PageDims) (today : String)
    (f : Field) (img : ImagePayload)
    (h1 : f.type = "signature" ∨ f.type = "image")
    (h2 : f.imageData = Option.some img) (h3 : img.hasComma = true)
    (h4 : img.embedOk = false) :
    processField dims today f = Except.ok ([], ["Image embed error"]) ∧
    ∀ fs ops warns, runFields dims today fs = Except.ok (ops, warns) →
      runFields dims today (f :: fs) =
        Except.ok (ops, "Image embed error" :: warns) := by
  have hp : processField dims today f =
      Except.ok ([], ["Image embed error"]) := by
    simp [processField, h1, h2, h3, h4]
  refine ⟨hp, fun fs ops warns hfs => ?_⟩
  simp only [runFields, hp, hfs]
  simp

/-- Witness for C7 at the §8 skip-on-bad-image scenario: one
corrupt-image signature field followed by one valid text field yields
the text mark and a recorded warning, not a pipeline failure. -/
theorem runFields_skip_on_bad_image_witness :
    processField ⟨612, 792⟩ ("1/1/2026") corruptSigField =
      Except.ok ([], ["Image embed error"]) ∧
    runFields ⟨612, 792⟩ ("1/1/2026") [corruptSigField, sampleTextField] =
      Except.ok ([DrawOp.drawText ("hello") 66.2 609.84 12],
        ["Image embed error"]) := by
  have h := runFields_skip_on_bad_image ⟨612, 792⟩ ("1/1/2026")
    corruptSigField corruptImagePayload (Or.inl rfl) rfl rfl rfl
  refine ⟨h.1, h.2 [sampleTextField]
    [DrawOp.drawText ("hello") 66.2 609.84 12] [] ?_⟩
  have htext : processField ⟨612, 792⟩ ("1/1/2026") sampleTextField =
      Except.ok ([DrawOp.drawText ("hello") 66.2 609.84 12], []) := by
    simp [processField, sampleTextField, samplePlacement,
      transformCoordinatesToPDF, min_def]
    norm_num
  simp [runFields, htext]

/-- C8 — Two requests identical except for the client-supplied
`pdfDimensions` hint produce identical output: every rectangle is
computed from the dimensions read off the decoded document, and the
hint has no influence on coordinate transformation or rendering. -/
theorem signPdf_ignores_client_dims (docDims : PageDims) (today : String)
    (fields : List Field) (d1 d2 : PageDims) :
    signPdf docDims today ⟨fields, d1⟩ = signPdf docDims today ⟨fields, d2⟩ :=
  rfl

/-- C9 — The editing-surface transform maps pixels to percent via
`pixel / scale / pageDimension * 100`, handling x and y symmetrically
with no origin flip, and `percentageToPixel` is its exact algebraic
inverse: the pixel rectangle round-trips identically. -/
theorem percentageToPixel_pixelToPercentage (s pw ph px py pwid phei : ℚ)
    (hs : 0 < s) (hpw : 0 < pw) (hph : 0 < ph) :
    (pixelToPercentage s pw ph px py pwid phei).x = px / s / pw * 100 ∧
    (pixelToPercentage s pw ph px py pwid phei).y = py / s / ph * 100 ∧
    (pixelToPercentage s pw ph px py pwid phei).width = pwid / s / pw * 100 ∧
    (pixelToPercentage s pw ph px py pwid phei).height = phei / s / ph * 100 ∧
    percentageToPixel s pw ph (pixelToPercentage s pw ph px py pwid phei) =
      ⟨px, py, pwid, phei⟩ := by
  refine ⟨rfl, rfl, rfl, rfl, ?_⟩
  simp only [pixelToPercentage, percentageToPixel, PixelRect.mk.injEq]
  have hs' : s ≠ 0 := ne_of_gt hs
  have hpw' : pw ≠ 0 := ne_of_gt hpw
  have hph' : ph ≠ 0 := ne_of_gt hph
  refine ⟨?_, ?_, ?_, ?_⟩ <;> field_simp <;> ring

/-- Witness for C9 at scale 2 on a 612×792 page with the pixel
rectangle (10, 20, 150, 50). -/
theorem percentageToPixel_pixelToPercentage_witness :
    (pixelToPercentage 2 612 792 10 20 150 50).x = 10 / 2 / 612 * 100 ∧
    (pixelToPercentage 2 612 792 10 20 150 50).y = 20 / 2 / 792 * 100 ∧
    (pixelToPercentage 2 612 792 10 20 150 50).width = 150 / 2 / 612 * 100 ∧
    (pixelToPercentage 2 612 792 10 20 150 50).height = 50 / 2 / 792 * 100 ∧
    percentageToPixel 2 612 792 (pixelToPercentage 2 612 792 10 20 150 50) =
      ⟨10, 20, 150, 50⟩ :=
  percentageToPixel_pixelToPercentage 2 612 792 10 20 150 50
    (by norm_num) (by norm_num) (by norm_num)

/-- C10 — A text field whose value is absent or the empty string,
and a signature or image field whose image data is absent, leave the
page unchanged with no error and no warning: the field is silently
skipped. -/
theorem processField_missing_content_silent (dims : PageDims)
    (today : String) (f : Field)
    (h : (f.type = "text" ∧
        (f.value = Option.none ∨ f.value = Option.some (""))) ∨
      ((f.type = "signature" ∨ f.type = "image") ∧
        f.imageData = Option.none)) :
    processField dims today f = Except.ok ([], []) := by
  rcases h with ⟨ht, hv | hv⟩ | ⟨ht, hi⟩
  · simp [processField, ht, hv]
  · simp [processField, ht, hv]
  · simp [processField, ht, hi]

/-- Witness for C10: an empty-string text field and a signature field
without image data are both silently skipped. -/
theorem processField_missing_content_silent_witness :
    processField ⟨612, 792⟩ ("1/1/2026") emptyTextField =
      Except.ok ([], []) ∧
    processField ⟨612, 792⟩ ("1/1/2026") noImageSigField =
      Except.ok ([], []) :=
  ⟨processField_missing_content_silent ⟨612, 792⟩ ("1/1/2026")
      emptyTextField (Or.inl ⟨rfl, Or.inr rfl⟩),
    processField_missing_content_silent ⟨612, 792⟩ ("1/1/2026")
      noImageSigField (Or.inr ⟨Or.inl rfl, rfl⟩)⟩

end SignatureEngine
